import Mathlib

/-!
Verification of the viben-ring combat/AI simulation core.

The definitions below are shallow embeddings of the repository's source:
  * `src/app/utils/behaviorTree.ts`  — generic behavior-tree engine
  * `src/app/utils/collision.ts`     — sphere overlap test
  * `src/app/context/GameState.tsx`  — state store (HP setters, sphere data)
  * `src/app/components/Boss.tsx`    — boss attack resolution
  * `src/unnamed/part_002`           — player character controller (attack resolution)
  * `src/unnamed/part_008`           — boss AI policy (`bossAI.ts`)

JavaScript numbers are modelled as real numbers; `Date.now()` timestamps are
real-valued parameters threaded through the state.
-/

namespace VibenRing

/-- Node status, from `behaviorTree.ts` `enum NodeStatus { SUCCESS, FAILURE, RUNNING }`. -/
inductive NodeStatus where
  | SUCCESS
  | FAILURE
  | RUNNING
deriving DecidableEq, Repr

open NodeStatus

/-- The Selector loop of `CompositeNode.execute` (`behaviorTree.ts` lines 44-61),
starting at cursor `c`.  A child is modelled by the `NodeStatus` its `execute()`
returns during this tick (each child is executed at most once per tick, since the
cursor only advances).  Returns the status, the cursor left for the next tick, and
the list of child indices that were executed, in order. -/
def selLoop (children : List NodeStatus) (c : Nat) : NodeStatus × Nat × List Nat :=
  if h : c < children.length then
    match children.get ⟨c, h⟩ with
    | RUNNING => (RUNNING, c, [c])
    | SUCCESS => (SUCCESS, 0, [c])
    | FAILURE =>
        let r := selLoop children (c + 1)
        (r.1, r.2.1, c :: r.2.2)
  else
    (FAILURE, 0, [])
termination_by children.length - c

/-- The Sequence loop of `CompositeNode.execute` (`behaviorTree.ts` lines 65-82),
starting at cursor `c`. -/
def seqLoop (children : List NodeStatus) (c : Nat) : NodeStatus × Nat × List Nat :=
  if h : c < children.length then
    match children.get ⟨c, h⟩ with
    | RUNNING => (RUNNING, c, [c])
    | FAILURE => (FAILURE, 0, [c])
    | SUCCESS =>
        let r := seqLoop children (c + 1)
        (r.1, r.2.1, c :: r.2.2)
  else
    (SUCCESS, 0, [])
termination_by children.length - c

/-- One tick of a Selector composite: `CompositeNode.execute` for
`NodeType.SELECTOR`, including the initial cursor reset when the remembered
cursor is out of range (`behaviorTree.ts` lines 39-41). -/
def selectorExecute (children : List NodeStatus) (cursor : Nat) :
    NodeStatus × Nat × List Nat :=
  selLoop children (if cursor ≥ children.length then 0 else cursor)

/-- One tick of a Sequence composite: `CompositeNode.execute` for
`NodeType.SEQUENCE`, including the initial cursor reset. -/
def sequenceExecute (children : List NodeStatus) (cursor : Nat) :
    NodeStatus × Nat × List Nat :=
  seqLoop children (if cursor ≥ children.length then 0 else cursor)

noncomputable section

open Classical

/-- A 3D vector, modelling the components of a `THREE.Vector3`. -/
structure Vec3 where
  x : ℝ
  y : ℝ
  z : ℝ

/-- Euler angles, modelling a `THREE.Euler` (default rotation order XYZ). -/
structure Euler where
  x : ℝ
  y : ℝ
  z : ℝ

/-- `THREE.Vector3.distanceTo`: the square root of the sum of the squared
componentwise differences. -/
def Vec3.distanceTo (a b : Vec3) : ℝ :=
  Real.sqrt ((a.x - b.x) * (a.x - b.x) + (a.y - b.y) * (a.y - b.y) +
    (a.z - b.z) * (a.z - b.z))

/-- Componentwise vector addition (`THREE.Vector3.add`). -/
def Vec3.add (a b : Vec3) : Vec3 :=
  ⟨a.x + b.x, a.y + b.y, a.z + b.z⟩

/-- `THREE.Vector3.multiplyScalar`. -/
def Vec3.smul (s : ℝ) (v : Vec3) : Vec3 :=
  ⟨s * v.x, s * v.y, s * v.z⟩

/-- `THREE.Vector3.length`. -/
def Vec3.length (v : Vec3) : ℝ :=
  Real.sqrt (v.x * v.x + v.y * v.y + v.z * v.z)

/-- `THREE.Vector3.normalize`: divides by the length, with a zero length
guarded to 1 (`this.divideScalar(this.length() || 1)`), leaving the zero
vector unchanged. -/
def Vec3.normalize (v : Vec3) : Vec3 :=
  if v.length = 0 then v else Vec3.smul (1 / v.length) v

/-- A `Vec3` as a point of Euclidean 3-space, used to compare the source's
distance formula with the mathematical Euclidean distance. -/
def Vec3.toE (v : Vec3) : EuclideanSpace ℝ (Fin 3) :=
  ![v.x, v.y, v.z]

/-- `didSpheresCollide` (`collision.ts` lines 11-36): the returned boolean is
`distance <= sphere1Radius + sphere2Radius` where `distance` is
`center1.distanceTo(center2)`; modelled as a `Prop` since the comparison is on
real numbers. -/
def didSpheresCollide (c1 : Vec3) (r1 : ℝ) (c2 : Vec3) (r2 : ℝ) : Prop :=
  c1.distanceTo c2 ≤ r1 + r2

/-- `THREE.Matrix4.makeRotationFromEuler` (rotation order XYZ) applied to a
vector by `applyMatrix4`, as used on the attack-sphere offsets in `Boss.tsx`
lines 212-214 and `part_002` lines 256-258. -/
def rotateByEuler (e : Euler) (v : Vec3) : Vec3 :=
  let a := Real.cos e.x
  let b := Real.sin e.x
  let c := Real.cos e.y
  let d := Real.sin e.y
  let e2 := Real.cos e.z
  let f := Real.sin e.z
  ⟨(c * e2) * v.x + (-(c * f)) * v.y + d * v.z,
   (a * f + b * e2 * d) * v.x + (a * e2 - b * f * d) * v.y + (-(b * c)) * v.z,
   (b * f - a * e2 * d) * v.x + (b * e2 + a * f * d) * v.y + (a * c) * v.z⟩

/-- The fields of the shared state (`GameState.tsx` lines 7-31 and 36-58,
mirrored in `window.vibenRingGlobalState`) that attack resolution reads and
writes. -/
structure GlobalState where
  playerPosition : Vec3
  playerRotation : Euler
  playerCollisionSphereOffset : Vec3
  playerCollisionSphereRadius : ℝ
  playerAttackSphereOffset : Vec3
  playerAttackSphereRadius : ℝ
  bossPosition : Vec3
  bossRotation : Euler
  bossCollisionSphereOffset : Vec3
  bossCollisionSphereRadius : ℝ
  bossAttackSphereOffset : Vec3
  bossAttackSphereRadius : ℝ
  playerHp : ℝ
  bossHp : ℝ

/-- `defaultGameState` (`GameState.tsx` lines 84-106), restricted to the fields
of `GlobalState`. -/
def defaultGameState : GlobalState where
  playerPosition := ⟨0, 0, 0⟩
  playerRotation := ⟨0, 0, 0⟩
  playerCollisionSphereOffset := ⟨0, 1, 0⟩
  playerCollisionSphereRadius := 0.6
  playerAttackSphereOffset := ⟨0, 1, 1.5⟩
  playerAttackSphereRadius := 0.8
  bossPosition := ⟨0, 0, 20⟩
  bossRotation := ⟨0, Real.pi, 0⟩
  bossCollisionSphereOffset := ⟨0, 2, 0⟩
  bossCollisionSphereRadius := 1.5
  bossAttackSphereOffset := ⟨0, 1.5, 10⟩
  bossAttackSphereRadius := 1.2
  playerHp := 100
  bossHp := 2000

/-- `applyDmgToBoss` (`GameState.tsx` lines 159-162):
`bossHp := Math.max(bossHp - dmg, 0)`.  No upper clamp is applied. -/
def applyDmgToBoss (g : GlobalState) (dmg : ℝ) : GlobalState :=
  { g with bossHp := max (g.bossHp - dmg) 0 }

/-- `setPlayerHp` (`GameState.tsx` lines 164-170): stores the argument
verbatim, with no clamping. -/
def setPlayerHp (g : GlobalState) (hp : ℝ) : GlobalState :=
  { g with playerHp := hp }

/-- The player attack-sphere world position (`part_002` lines 256-265): the
player position plus the rotated attack-sphere offset, all three components
added. -/
def playerAttackSpherePosition (g : GlobalState) : Vec3 :=
  let off := rotateByEuler g.playerRotation g.playerAttackSphereOffset
  ⟨g.playerPosition.x + off.x, g.playerPosition.y + off.y,
   g.playerPosition.z + off.z⟩

/-- The boss attack-sphere world position (`Boss.tsx` lines 211-221): the x and
y components add the rotated offset, but the z component subtracts it
(`bossPosition.z - bossAttackOffset.z`, line 220). -/
def bossAttackSpherePosition (g : GlobalState) : Vec3 :=
  let off := rotateByEuler g.bossRotation g.bossAttackSphereOffset
  ⟨g.bossPosition.x + off.x, g.bossPosition.y + off.y,
   g.bossPosition.z - off.z⟩

/-- The boss collision-sphere world position (`part_002` lines 267-271): boss
position plus the (unrotated) collision offset. -/
def bossCollisionSpherePosition (g : GlobalState) : Vec3 :=
  ⟨g.bossPosition.x + g.bossCollisionSphereOffset.x,
   g.bossPosition.y + g.bossCollisionSphereOffset.y,
   g.bossPosition.z + g.bossCollisionSphereOffset.z⟩

/-- The player collision-sphere world position (`Boss.tsx` lines 223-227). -/
def playerCollisionSpherePosition (g : GlobalState) : Vec3 :=
  ⟨g.playerPosition.x + g.playerCollisionSphereOffset.x,
   g.playerPosition.y + g.playerCollisionSphereOffset.y,
   g.playerPosition.z + g.playerCollisionSphereOffset.z⟩

/-- The player's random attack damage (`part_002` lines 209-210 and 283):
`Math.random() * (MAX_ATTACK_DAMAGE - MIN_ATTACK_DAMAGE) + MIN_ATTACK_DAMAGE`
with `rand` standing for the `Math.random()` sample. -/
def playerAttackDamage (rand : ℝ) : ℝ :=
  rand * (120 - 69) + 69

/-- The delayed damage callback of the player's attack (`part_002` lines
252-328): iff the player's attack sphere overlaps the boss's collision sphere
and the boss is alive, random damage is applied through `applyDmgToBoss`;
otherwise the state is unchanged (a miss is only logged). -/
def playerAttackResolve (g : GlobalState) (rand : ℝ) : GlobalState :=
  if didSpheresCollide (playerAttackSpherePosition g) g.playerAttackSphereRadius
      (bossCollisionSpherePosition g) g.bossCollisionSphereRadius ∧
      0 < g.bossHp then
    applyDmgToBoss g (playerAttackDamage rand)
  else g

/-- The delayed damage callback of the boss's attack (`Boss.tsx` lines
204-246): iff the boss's attack sphere overlaps the player's collision sphere
and the player is alive, `setPlayerHp (Math.max 0 (playerHp - ATTACK_DAMAGE))`
with `ATTACK_DAMAGE = 10`; otherwise the state is unchanged. -/
def bossAttackResolve (g : GlobalState) : GlobalState :=
  if didSpheresCollide (bossAttackSpherePosition g) g.bossAttackSphereRadius
      (playerCollisionSpherePosition g) g.playerCollisionSphereRadius ∧
      0 < g.playerHp then
    setPlayerHp g (max 0 (g.playerHp - 10))
  else g

/-- A state in which the boss's delayed attack callback hits: the boss and the
player sit at the origin with zero rotations and zero attack/collision sphere
offsets, so both test spheres share a center; the player is alive at 50 HP. -/
def gHit : GlobalState where
  playerPosition := ⟨0, 0, 0⟩
  playerRotation := ⟨0, 0, 0⟩
  playerCollisionSphereOffset := ⟨0, 0, 0⟩
  playerCollisionSphereRadius := 0.6
  playerAttackSphereOffset := ⟨0, 1, 1.5⟩
  playerAttackSphereRadius := 0.8
  bossPosition := ⟨0, 0, 0⟩
  bossRotation := ⟨0, 0, 0⟩
  bossCollisionSphereOffset := ⟨0, 2, 0⟩
  bossCollisionSphereRadius := 1.5
  bossAttackSphereOffset := ⟨0, 0, 0⟩
  bossAttackSphereRadius := 1.2
  playerHp := 50
  bossHp := 2000

/-- The planar (XZ) distance named by the spec for `InAttackRange` ("planar
(XZ) distance boss↔player"), written from the spec's words for comparison with
the source's `distanceToPlayer`. -/
def specPlanarDistanceXZ (a b : Vec3) : ℝ :=
  Real.sqrt ((a.x - b.x) * (a.x - b.x) + (a.z - b.z) * (a.z - b.z))

/-- `BossAIState` (`part_008` lines 6-14). -/
structure BossAIState where
  isAttacking : Bool
  lastAttackTime : ℝ
  attackCooldown : ℝ
  attackRange : ℝ
  moveSpeed : ℝ
  turnSpeed : ℝ
  currentAction : String

/-- `initBossAIState` (`part_008` lines 17-27). -/
def initBossAIState : BossAIState where
  isAttacking := false
  lastAttackTime := 0
  attackCooldown := 2000
  attackRange := 10
  moveSpeed := 3.5
  turnSpeed := 2.5
  currentAction := "idle"

/-- `distanceToPlayer` (`part_008` lines 30-32): the full 3D distance
`bossPosition.distanceTo(playerPosition)`; the Y components are not ignored. -/
def distanceToPlayer (bossPosition playerPosition : Vec3) : ℝ :=
  bossPosition.distanceTo playerPosition

/-- `directionToPlayer` (`part_008` lines 35-42): the planar (Y ignored)
direction from boss to player, normalized. -/
def directionToPlayer (bossPosition playerPosition : Vec3) : Vec3 :=
  Vec3.normalize
    ⟨playerPosition.x - bossPosition.x, 0, playerPosition.z - bossPosition.z⟩

/-- JavaScript `Math.atan2 y x` on real inputs. -/
def atan2 (y x : ℝ) : ℝ :=
  if 0 < x then Real.arctan (y / x)
  else if x < 0 then
    (if 0 ≤ y then Real.arctan (y / x) + Real.pi
     else Real.arctan (y / x) - Real.pi)
  else
    (if 0 < y then Real.pi / 2 else if y < 0 then -(Real.pi / 2) else 0)

/-- `angleToFacePlayer` (`part_008` lines 45-48):
`Math.atan2(direction.x, direction.z)` of the planar direction to the player. -/
def angleToFacePlayer (bossPosition playerPosition : Vec3) : ℝ :=
  let direction := directionToPlayer bossPosition playerPosition
  atan2 direction.x direction.z

/-- The loop `while (angleDiff > Math.PI) angleDiff -= Math.PI * 2`
(`part_008` lines 62 and 125). -/
def wrapDown (a : ℝ) : ℝ :=
  if Real.pi < a then wrapDown (a - Real.pi * 2) else a
termination_by (⌈(a - Real.pi) / (Real.pi * 2)⌉).toNat
decreasing_by
  have hpi := Real.pi_pos
  have h2 : (0 : ℝ) < Real.pi * 2 := by linarith
  have hx : (0 : ℝ) < (a - Real.pi) / (Real.pi * 2) :=
    div_pos (by linarith) h2
  have hceil : 0 < ⌈(a - Real.pi) / (Real.pi * 2)⌉ := Int.ceil_pos.mpr hx
  have heq : (a - Real.pi * 2 - Real.pi) / (Real.pi * 2) =
      (a - Real.pi) / (Real.pi * 2) - 1 := by
    field_simp
    ring
  rw [heq, Int.ceil_sub_one]
  exact (Int.toNat_lt_toNat hceil).mpr (by omega)

/-- The loop `while (angleDiff < -Math.PI) angleDiff += Math.PI * 2`
(`part_008` lines 63 and 126). -/
def wrapUp (a : ℝ) : ℝ :=
  if a < -Real.pi then wrapUp (a + Real.pi * 2) else a
termination_by (⌈(-Real.pi - a) / (Real.pi * 2)⌉).toNat
decreasing_by
  have hpi := Real.pi_pos
  have h2 : (0 : ℝ) < Real.pi * 2 := by linarith
  have hx : (0 : ℝ) < (-Real.pi - a) / (Real.pi * 2) :=
    div_pos (by linarith) h2
  have hceil : 0 < ⌈(-Real.pi - a) / (Real.pi * 2)⌉ := Int.ceil_pos.mpr hx
  have heq : (-Real.pi - (a + Real.pi * 2)) / (Real.pi * 2) =
      (-Real.pi - a) / (Real.pi * 2) - 1 := by
    field_simp
    ring
  rw [heq, Int.ceil_sub_one]
  exact (Int.toNat_lt_toNat hceil).mpr (by omega)

/-- Both wrap-around loops in source order: first the `> π` loop, then the
`< -π` loop (`part_008` lines 61-63 and 124-126). -/
def wrapAngle (a : ℝ) : ℝ :=
  wrapUp (wrapDown a)

/-- `isFacingPlayer` (`part_008` lines 51-66): the wrap-adjusted difference
between the bearing to the player and the boss yaw is below the threshold in
absolute value. -/
def isFacingPlayer (bossRotation : Euler) (bossPosition playerPosition : Vec3)
    (threshold : ℝ) : Prop :=
  |wrapAngle (angleToFacePlayer bossPosition playerPosition - bossRotation.y)| <
    threshold

/-- The per-tick boss world: the `gameState` fields the behavior-tree leaves
read and write (`bossPosition`, `bossRotation`, `playerPosition`), the
`BossAIState`, the `Date.now()` clock at this tick, the tick `delta`, and a
counter of `triggerBossAttack` invocations. -/
structure BossWorld where
  playerPosition : Vec3
  bossPosition : Vec3
  bossRotation : Euler
  ai : BossAIState
  now : ℝ
  delta : ℝ
  triggerCount : Nat

/-- The `inAttackRange` condition (`part_008` lines 78-81): SUCCESS iff
`distanceToPlayer` — the full 3D distance — is at most `attackRange`. -/
def inAttackRange (bossPosition playerPosition : Vec3) (attackRange : ℝ) :
    NodeStatus :=
  if distanceToPlayer bossPosition playerPosition ≤ attackRange then
    NodeStatus.SUCCESS
  else NodeStatus.FAILURE

/-- The `inAttackRange` leaf as a stateful child of the boss tree. -/
def inAttackRangeLeaf (w : BossWorld) : NodeStatus × BossWorld :=
  (inAttackRange w.bossPosition w.playerPosition w.ai.attackRange, w)

/-- The `attackOffCooldown` condition leaf (`part_008` lines 84-88): SUCCESS
iff `now - lastAttackTime >= attackCooldown`. -/
def attackOffCooldownLeaf (w : BossWorld) : NodeStatus × BossWorld :=
  (if w.now - w.ai.lastAttackTime ≥ w.ai.attackCooldown then NodeStatus.SUCCESS
   else NodeStatus.FAILURE, w)

/-- The state mutation of a successful `performAttack` (`part_008` lines
92-97): `isAttacking := true`, `lastAttackTime := now`,
`currentAction := "attack"`, and one `triggerBossAttack` invocation counted. -/
def performAttackUpdate (w : BossWorld) : BossWorld :=
  { w with
      ai := { w.ai with
                isAttacking := true
                lastAttackTime := w.now
                currentAction := "attack" }
      triggerCount := w.triggerCount + 1 }

/-- The `performAttack` action leaf (`part_008` lines 91-107): when not already
attacking, it applies `performAttackUpdate` and returns SUCCESS; when already
attacking it returns RUNNING and changes nothing. -/
def performAttackLeaf (w : BossWorld) : NodeStatus × BossWorld :=
  if w.ai.isAttacking = false then (NodeStatus.SUCCESS, performAttackUpdate w)
  else (NodeStatus.RUNNING, w)

/-- The `isFacingPlayerNode` condition leaf (`part_008` lines 110-116), with
the default threshold 0.2. -/
def isFacingPlayerLeaf (w : BossWorld) : NodeStatus × BossWorld :=
  (if isFacingPlayer w.bossRotation w.bossPosition w.playerPosition 0.2 then
     NodeStatus.SUCCESS
   else NodeStatus.FAILURE, w)

/-- The `turnTowardsPlayer` action leaf (`part_008` lines 119-137): rotates the
boss yaw toward the bearing to the player by at most `turnSpeed * delta`,
wrap-aware and signed; SUCCESS once the (pre-rotation) difference is below
0.1 rad, else RUNNING. -/
def turnTowardsPlayerLeaf (w : BossWorld) : NodeStatus × BossWorld :=
  let targetAngle := angleToFacePlayer w.bossPosition w.playerPosition
  let angleDiff := wrapAngle (targetAngle - w.bossRotation.y)
  let rotationAmount :=
    Real.sign angleDiff * min |angleDiff| (w.ai.turnSpeed * w.delta)
  ((if |angleDiff| < 0.1 then NodeStatus.SUCCESS else NodeStatus.RUNNING),
    { w with
        bossRotation := { w.bossRotation with
                            y := w.bossRotation.y + rotationAmount }
        ai := { w.ai with currentAction := "turning" } })

/-- The `moveTowardsPlayer` action leaf (`part_008` lines 140-167): FAILURE if
attacking; SUCCESS (action `idle`) if already within range; otherwise advances
the boss by `moveSpeed * delta` along the planar direction (action `moving`)
and returns RUNNING (the final comparison reuses the pre-move distance). -/
def moveTowardsPlayerLeaf (w : BossWorld) : NodeStatus × BossWorld :=
  if w.ai.isAttacking then (NodeStatus.FAILURE, w)
  else
    let direction := directionToPlayer w.bossPosition w.playerPosition
    let distance := distanceToPlayer w.bossPosition w.playerPosition
    if distance ≤ w.ai.attackRange then
      (NodeStatus.SUCCESS, { w with ai := { w.ai with currentAction := "idle" } })
    else
      let moveDistance := w.ai.moveSpeed * w.delta
      let newPosition := Vec3.add w.bossPosition (Vec3.smul moveDistance direction)
      ((if distance ≤ w.ai.attackRange then NodeStatus.SUCCESS
        else NodeStatus.RUNNING),
        { w with
            bossPosition := newPosition
            ai := { w.ai with currentAction := "moving" } })

/-- `CompositeNode.execute` for a Selector over stateful children, starting at
cursor 0.  The boss tree is rebuilt with fresh node objects — cursors 0 — on
every AI tick (`Boss.tsx` lines 310-320), so within one tick the Selector loop
of `behaviorTree.ts` lines 44-61 visits the children in order exactly as
below. -/
def runSelector {σ : Type} : List (σ → NodeStatus × σ) → σ → NodeStatus × σ
  | [], s => (NodeStatus.FAILURE, s)
  | child :: rest, s =>
    match child s with
    | (NodeStatus.RUNNING, s') => (NodeStatus.RUNNING, s')
    | (NodeStatus.SUCCESS, s') => (NodeStatus.SUCCESS, s')
    | (NodeStatus.FAILURE, s') => runSelector rest s'

/-- `CompositeNode.execute` for a Sequence over stateful children, starting at
cursor 0 (`behaviorTree.ts` lines 65-82). -/
def runSequence {σ : Type} : List (σ → NodeStatus × σ) → σ → NodeStatus × σ
  | [], s => (NodeStatus.SUCCESS, s)
  | child :: rest, s =>
    match child s with
    | (NodeStatus.RUNNING, s') => (NodeStatus.RUNNING, s')
    | (NodeStatus.FAILURE, s') => (NodeStatus.FAILURE, s')
    | (NodeStatus.SUCCESS, s') => runSequence rest s'

/-- One tick of the `attackSequence` composite (`part_008` lines 170-174):
`Sequence [inAttackRange, attackOffCooldown, performAttack]`. -/
def attackSequenceTick (w : BossWorld) : NodeStatus × BossWorld :=
  runSequence [inAttackRangeLeaf, attackOffCooldownLeaf, performAttackLeaf] w

/-- One tick of the `chaseSequence` composite (`part_008` lines 177-183):
`Sequence [Selector [isFacingPlayer, turnTowardsPlayer], moveTowardsPlayer]`. -/
def chaseSequenceTick (w : BossWorld) : NodeStatus × BossWorld :=
  runSequence
    [fun v => runSelector [isFacingPlayerLeaf, turnTowardsPlayerLeaf] v,
     moveTowardsPlayerLeaf] w

/-- One tick of the boss behavior tree root (`rootNode`, `part_008` lines
187-190, executed once per AI interval by `Boss.tsx` lines 310-320):
`Selector [attackSequence, chaseSequence]`, evaluated from cursor 0 since the
tree is rebuilt with fresh node objects on every tick. -/
def bossTick (w : BossWorld) : NodeStatus × BossWorld :=
  runSelector [attackSequenceTick, chaseSequenceTick] w

/-- A first-tick world: the boss and the player share the origin (distance 0,
inside the attack range of 10), the boss has never attacked
(`lastAttackTime = 0`, cooldown elapsed at `now = 100000`) and is not
attacking. -/
def bossWorldFirstTick : BossWorld where
  playerPosition := ⟨0, 0, 0⟩
  bossPosition := ⟨0, 0, 0⟩
  bossRotation := ⟨0, 0, 0⟩
  ai := { isAttacking := false, lastAttackTime := 0, attackCooldown := 2000,
          attackRange := 10, moveSpeed := 3.5, turnSpeed := 2.5,
          currentAction := "idle" }
  now := 100000
  delta := 0.05
  triggerCount := 0

/-- The world one AI interval (50 ms) after the boss started an attack at time
100000: still attacking, `lastAttackTime = 100000`, player still at distance 0,
boss facing the player (yaw 0 with coincident positions gives bearing 0). -/
def bossWorldSecondTick : BossWorld where
  playerPosition := ⟨0, 0, 0⟩
  bossPosition := ⟨0, 0, 0⟩
  bossRotation := ⟨0, 0, 0⟩
  ai := { isAttacking := true, lastAttackTime := 100000, attackCooldown := 2000,
          attackRange := 10, moveSpeed := 3.5, turnSpeed := 2.5,
          currentAction := "attack" }
  now := 100050
  delta := 0.05
  triggerCount := 1

/-- Whether the player's `isAttacking` flag is still set `elapsedMs`
milliseconds after attack start, given the time (if any) at which the
animation-finished signal fires.  Modelled from `part_002` lines 330-392: the
flag is cleared both by the `onFinished` listener and by a backup `setTimeout`
of 700 ms that fires independently of the listener. -/
def playerStillAttacking (finishedAt : Option ℝ) (elapsedMs : ℝ) : Prop :=
  (match finishedAt with
   | some f => elapsedMs < f
   | none => True) ∧ elapsedMs < 700

/-- Whether the boss's `isAttacking` flag is still set `elapsedMs` milliseconds
after attack start.  Modelled from `Boss.tsx` lines 248-275: the flag is
cleared only by the `onFinished` animation listener; `triggerBossAttack`
registers no backup timeout (`part_008` lines 99-100 note the reset happens in
`Boss.tsx` when the animation finishes). -/
def bossStillAttacking (finishedAt : Option ℝ) (elapsedMs : ℝ) : Prop :=
  match finishedAt with
  | some f => elapsedMs < f
  | none => True

end

end VibenRing

namespace VibenRing

open NodeStatus

/-- C1: Selector semantics.  From a remembered cursor `c` (in range):
a RUNNING child makes the Selector return RUNNING with the cursor unchanged
(earlier siblings not re-evaluated, only child `c` executed); a SUCCESS child
resets the cursor to 0 and returns SUCCESS; a FAILURE child advances the cursor
to the next child (the tick continues there); if all remaining children fail the
Selector returns FAILURE with cursor 0.  Concretely, for children
`[FAILURE, RUNNING, SUCCESS]` the first tick returns RUNNING with the cursor
parked on the second child and the third child never evaluated; if the second
child returns SUCCESS on the next tick, that tick returns SUCCESS with cursor 0. -/
theorem C1_selector_semantics :
    (∀ (children : List NodeStatus) (c : Nat) (h : c < children.length),
        children.get ⟨c, h⟩ = RUNNING →
        selectorExecute children c = (RUNNING, c, [c])) ∧
    (∀ (children : List NodeStatus) (c : Nat) (h : c < children.length),
        children.get ⟨c, h⟩ = SUCCESS →
        selectorExecute children c = (SUCCESS, 0, [c])) ∧
    (∀ (children : List NodeStatus) (c : Nat) (h : c < children.length),
        children.get ⟨c, h⟩ = FAILURE →
        selectorExecute children c =
          ((selLoop children (c + 1)).1, (selLoop children (c + 1)).2.1,
            c :: (selLoop children (c + 1)).2.2)) ∧
    (∀ (children : List NodeStatus) (c : Nat),
        (∀ (i : Nat) (h : i < children.length), c ≤ i →
          children.get ⟨i, h⟩ = FAILURE) →
        c < children.length →
        (selectorExecute children c).1 = FAILURE ∧
        (selectorExecute children c).2.1 = 0) ∧
    selectorExecute [FAILURE, RUNNING, SUCCESS] 0 = (RUNNING, 1, [0, 1]) ∧
    selectorExecute [FAILURE, SUCCESS, SUCCESS] 1 = (SUCCESS, 0, [1]) := by
  refine ⟨?_, ?_, ?_, ?_, by simp [selectorExecute, selLoop], by simp [selectorExecute, selLoop]⟩
  · intro children c h hr
    simp only [selectorExecute, if_neg (by omega : ¬ c ≥ children.length)]
    rw [selLoop, dif_pos h, hr]
  · intro children c h hs
    simp only [selectorExecute, if_neg (by omega : ¬ c ≥ children.length)]
    rw [selLoop, dif_pos h, hs]
  · intro children c h hf
    simp only [selectorExecute, if_neg (by omega : ¬ c ≥ children.length)]
    rw [selLoop, dif_pos h, hf]
  · intro children c hall hc
    simp only [selectorExecute, if_neg (by omega : ¬ c ≥ children.length)]
    clear hc
    suffices h : ∀ (n c : Nat),
        children.length - c = n →
        (∀ (i : Nat) (h : i < children.length), c ≤ i →
          children.get ⟨i, h⟩ = FAILURE) →
        (selLoop children c).1 = FAILURE ∧ (selLoop children c).2.1 = 0 from
      h (children.length - c) c rfl hall
    intro n
    induction n with
    | zero =>
        intro c hc _
        rw [selLoop, dif_neg (by omega)]
        exact ⟨rfl, rfl⟩
    | succ n ih =>
        intro c hc hall'
        rw [selLoop, dif_pos (by omega : c < children.length),
          hall' c (by omega) (le_refl c)]
        have := ih (c + 1) (by omega) (fun i h hi => hall' i h (by omega))
        exact ⟨this.1, this.2⟩

/-- Witness for C1 at a concrete input: for children `[SUCCESS]` and cursor 0,
the Selector returns SUCCESS with cursor reset to 0. -/
theorem C1_selector_semantics_witness :
    selectorExecute [SUCCESS] 0 = (SUCCESS, 0, [0]) :=
  C1_selector_semantics.2.1 [SUCCESS] 0 (by decide) (by decide)

/-- C2: Sequence semantics.  From a remembered cursor `c` (in range): the
Sequence advances past a SUCCESS child, returns RUNNING with the cursor
unchanged on a RUNNING child, returns FAILURE with cursor reset to 0 on a
FAILURE child, and returns SUCCESS with cursor 0 once every remaining child has
succeeded.  Concretely, for children `[SUCCESS, FAILURE, SUCCESS]` one tick
returns FAILURE having evaluated exactly the first two children (the third is
never invoked) with the cursor reset to 0. -/
theorem C2_sequence_semantics :
    (∀ (children : List NodeStatus) (c : Nat) (h : c < children.length),
        children.get ⟨c, h⟩ = SUCCESS →
        sequenceExecute children c =
          ((seqLoop children (c + 1)).1, (seqLoop children (c + 1)).2.1,
            c :: (seqLoop children (c + 1)).2.2)) ∧
    (∀ (children : List NodeStatus) (c : Nat) (h : c < children.length),
        children.get ⟨c, h⟩ = RUNNING →
        sequenceExecute children c = (RUNNING, c, [c])) ∧
    (∀ (children : List NodeStatus) (c : Nat) (h : c < children.length),
        children.get ⟨c, h⟩ = FAILURE →
        sequenceExecute children c = (FAILURE, 0, [c])) ∧
    (∀ (children : List NodeStatus) (c : Nat),
        (∀ (i : Nat) (h : i < children.length), c ≤ i →
          children.get ⟨i, h⟩ = SUCCESS) →
        c < children.length →
        (sequenceExecute children c).1 = SUCCESS ∧
        (sequenceExecute children c).2.1 = 0) ∧
    sequenceExecute [SUCCESS, FAILURE, SUCCESS] 0 = (FAILURE, 0, [0, 1]) := by
  refine ⟨?_, ?_, ?_, ?_, by simp [sequenceExecute, seqLoop]⟩
  · intro children c h hs
    simp only [sequenceExecute, if_neg (by omega : ¬ c ≥ children.length)]
    rw [seqLoop, dif_pos h, hs]
  · intro children c h hr
    simp only [sequenceExecute, if_neg (by omega : ¬ c ≥ children.length)]
    rw [seqLoop, dif_pos h, hr]
  · intro children c h hf
    simp only [sequenceExecute, if_neg (by omega : ¬ c ≥ children.length)]
    rw [seqLoop, dif_pos h, hf]
  · intro children c hall hc
    simp only [sequenceExecute, if_neg (by omega : ¬ c ≥ children.length)]
    clear hc
    suffices h : ∀ (n c : Nat),
        children.length - c = n →
        (∀ (i : Nat) (h : i < children.length), c ≤ i →
          children.get ⟨i, h⟩ = SUCCESS) →
        (seqLoop children c).1 = SUCCESS ∧ (seqLoop children c).2.1 = 0 from
      h (children.length - c) c rfl hall
    intro n
    induction n with
    | zero =>
        intro c hc _
        rw [seqLoop, dif_neg (by omega)]
        exact ⟨rfl, rfl⟩
    | succ n ih =>
        intro c hc hall'
        rw [seqLoop, dif_pos (by omega : c < children.length),
          hall' c (by omega) (le_refl c)]
        have := ih (c + 1) (by omega) (fun i h hi => hall' i h (by omega))
        exact ⟨this.1, this.2⟩

/-- Witness for C2 at a concrete input: for children `[FAILURE]` and cursor 0,
the Sequence returns FAILURE with cursor reset to 0. -/
theorem C2_sequence_semantics_witness :
    sequenceExecute [FAILURE] 0 = (FAILURE, 0, [0]) :=
  C2_sequence_semantics.2.2.1 [FAILURE] 0 (by decide) (by decide)

/-- The source's distance formula agrees with the Euclidean metric on ℝ³. -/
theorem Vec3.distanceTo_eq_dist (a b : Vec3) :
    a.distanceTo b = dist a.toE b.toE := by
  rw [EuclideanSpace.dist_eq]
  unfold Vec3.distanceTo Vec3.toE
  congr 1
  simp only [Fin.sum_univ_three, Real.dist_eq, sq_abs, Matrix.cons_val_zero,
    Matrix.cons_val_one, Matrix.head_cons, Matrix.cons_val_two, Matrix.tail_cons]
  ring

/-- C5: `didSpheresCollide A rA B rB` holds iff the Euclidean distance between
the centers is at most `rA + rB`; a distance exactly equal to `rA + rB`
(tangency) counts as a collision, and any strictly greater distance does
not. -/
theorem C5_spheres_collide_iff :
    (∀ (A : Vec3) (rA : ℝ) (B : Vec3) (rB : ℝ),
        didSpheresCollide A rA B rB ↔ dist A.toE B.toE ≤ rA + rB) ∧
    (∀ (A : Vec3) (rA : ℝ) (B : Vec3) (rB : ℝ),
        dist A.toE B.toE = rA + rB → didSpheresCollide A rA B rB) ∧
    (∀ (A : Vec3) (rA : ℝ) (B : Vec3) (rB : ℝ),
        rA + rB < dist A.toE B.toE → ¬ didSpheresCollide A rA B rB) := by
  have hiff : ∀ (A : Vec3) (rA : ℝ) (B : Vec3) (rB : ℝ),
      didSpheresCollide A rA B rB ↔ dist A.toE B.toE ≤ rA + rB := by
    intro A rA B rB
    unfold didSpheresCollide
    rw [Vec3.distanceTo_eq_dist]
  refine ⟨hiff, ?_, ?_⟩
  · intro A rA B rB h
    exact (hiff A rA B rB).mpr (le_of_eq h)
  · intro A rA B rB h hc
    exact absurd ((hiff A rA B rB).mp hc) (not_le.mpr h)

/-- Witness for C5 at a concrete input: unit-distance centers with radii
summing exactly to the distance (tangency) do collide. -/
theorem C5_spheres_collide_iff_witness :
    didSpheresCollide ⟨0, 0, 0⟩ (1/2) ⟨1, 0, 0⟩ (1/2) := by
  refine C5_spheres_collide_iff.2.1 ⟨0, 0, 0⟩ (1/2) ⟨1, 0, 0⟩ (1/2) ?_
  rw [← Vec3.distanceTo_eq_dist]
  unfold Vec3.distanceTo
  norm_num [Real.sqrt_one]

/-- C7 counterexample: with the boss at `(0,12,0)`, the player at the origin
and `attackRange = 10`, the planar XZ distance is `0 ≤ 10`, yet the
`inAttackRange` condition returns FAILURE — the source compares the full 3D
distance, so the claim's planar characterization is false. -/
theorem C7_in_attack_range_counterexample :
    specPlanarDistanceXZ ⟨0, 12, 0⟩ ⟨0, 0, 0⟩ ≤ 10 ∧
    inAttackRange ⟨0, 12, 0⟩ ⟨0, 0, 0⟩ 10 = FAILURE := by
  constructor
  · unfold specPlanarDistanceXZ
    norm_num [Real.sqrt_zero]
  · unfold inAttackRange distanceToPlayer Vec3.distanceTo
    rw [if_neg]
    exact not_le.mpr ((Real.lt_sqrt (by norm_num)).mpr (by norm_num))

/-- C7 (amended): the `InAttackRange` condition leaf of the boss tree returns
SUCCESS iff the full 3D Euclidean distance between the boss and player
positions — the Y components included — is at most `attackRange`. -/
theorem C7_in_attack_range_3d_distance :
    (∀ w : BossWorld, (inAttackRangeLeaf w).1 =
        inAttackRange w.bossPosition w.playerPosition w.ai.attackRange) ∧
    ∀ (bossPosition playerPosition : Vec3) (attackRange : ℝ),
      inAttackRange bossPosition playerPosition attackRange = SUCCESS ↔
        dist bossPosition.toE playerPosition.toE ≤ attackRange := by
  refine ⟨fun w => rfl, ?_⟩
  intro b p r
  unfold inAttackRange distanceToPlayer
  rw [Vec3.distanceTo_eq_dist]
  split
  · simp_all
  · simp_all

/-- C8 counterexample: from the default `bossHp = 2000`, applying a damage
amount of `-1` leaves `bossHp = 2001`, outside `[0, maxHp]` — the store clamps
only from below, not at `maxHp`. -/
theorem C8_hp_clamp_counterexample :
    defaultGameState.bossHp = 2000 ∧
    (applyDmgToBoss defaultGameState (-1)).bossHp = 2001 := by
  constructor
  · rfl
  · unfold applyDmgToBoss defaultGameState
    simp only
    rw [max_eq_left (by norm_num)]
    norm_num

/-- C8 (amended): `applyDmgToBoss` never drives `bossHp` negative, and any
`dmg ≥ bossHp` leaves exactly 0; the result also stays at most `maxHp = 2000`
whenever the starting HP did and the damage is non-negative — but no upper
clamp is applied, so only non-negative damage preserves the upper bound. -/
theorem C8_apply_dmg_clamped :
    ∀ (g : GlobalState) (dmg : ℝ),
      0 ≤ (applyDmgToBoss g dmg).bossHp ∧
      (g.bossHp ≤ dmg → (applyDmgToBoss g dmg).bossHp = 0) ∧
      (0 ≤ dmg → g.bossHp ≤ 2000 → (applyDmgToBoss g dmg).bossHp ≤ 2000) := by
  intro g dmg
  unfold applyDmgToBoss
  exact ⟨le_max_right _ _,
    fun h => max_eq_right (by linarith),
    fun h1 h2 => max_le (by linarith) (by norm_num)⟩

/-- Witness for C8 at a concrete input: damage 2500 against the default 2000
HP leaves exactly 0. -/
theorem C8_apply_dmg_clamped_witness :
    (applyDmgToBoss defaultGameState 2500).bossHp = 0 :=
  (C8_apply_dmg_clamped defaultGameState 2500).2.1
    (by norm_num [defaultGameState])

/-- C10: `setPlayerHp` stores its argument verbatim with no clamping, so a
direct call with −5 or 250 leaves `playerHp` outside `[0, 100]`; the
non-negativity of the player's HP is maintained only at the call site — the
boss's damage callback computes `max 0 (playerHp − 10)` before calling
`setPlayerHp`. -/
theorem C10_set_player_hp_verbatim :
    (∀ (g : GlobalState) (v : ℝ), (setPlayerHp g v).playerHp = v) ∧
    (setPlayerHp defaultGameState (-5)).playerHp < 0 ∧
    100 < (setPlayerHp defaultGameState 250).playerHp ∧
    (∀ g : GlobalState,
        didSpheresCollide (bossAttackSpherePosition g) g.bossAttackSphereRadius
          (playerCollisionSpherePosition g) g.playerCollisionSphereRadius →
        0 < g.playerHp →
        (bossAttackResolve g).playerHp = max 0 (g.playerHp - 10)) := by
  refine ⟨fun g v => rfl, by norm_num [setPlayerHp],
    by norm_num [setPlayerHp], ?_⟩
  intro g hcol hhp
  unfold bossAttackResolve
  rw [if_pos ⟨hcol, hhp⟩]
  rfl

/-- Witness for C10 at a concrete input: in `gHit` the boss's attack callback
hits and stores `max 0 (50 − 10) = 40` through `setPlayerHp`. -/
theorem C10_set_player_hp_verbatim_witness :
    (bossAttackResolve gHit).playerHp = 40 := by
  rw [C10_set_player_hp_verbatim.2.2.2 gHit ?hcol ?hhp]
  case hcol =>
    unfold didSpheresCollide bossAttackSpherePosition
      playerCollisionSpherePosition rotateByEuler Vec3.distanceTo gHit
    norm_num [Real.sqrt_zero]
  case hhp => norm_num [gHit]
  norm_num [gHit]

/-- C4: delayed attack resolution.  Player→boss (with `rand` the
`Math.random()` sample, `0 ≤ rand < 1`): when the spheres do not overlap the
state is unchanged; when they overlap and the boss is alive, `bossHp` becomes
`max (bossHp − dmg) 0` where `dmg = rand·(120−69)+69` lies in `[69,120]`, the
result is never negative and strictly smaller than before; when they overlap
but the boss is dead, nothing changes.  Boss→player: the same gating with a
fixed damage of 10, clamped at 0. -/
theorem C4_attack_resolution :
    (∀ (g : GlobalState) (rand : ℝ),
        ¬ didSpheresCollide (playerAttackSpherePosition g)
            g.playerAttackSphereRadius (bossCollisionSpherePosition g)
            g.bossCollisionSphereRadius →
        playerAttackResolve g rand = g) ∧
    (∀ (g : GlobalState) (rand : ℝ), 0 ≤ rand → rand < 1 →
        didSpheresCollide (playerAttackSpherePosition g)
          g.playerAttackSphereRadius (bossCollisionSpherePosition g)
          g.bossCollisionSphereRadius →
        0 < g.bossHp →
        (playerAttackResolve g rand).bossHp =
            max (g.bossHp - playerAttackDamage rand) 0 ∧
          69 ≤ playerAttackDamage rand ∧ playerAttackDamage rand ≤ 120 ∧
          0 ≤ (playerAttackResolve g rand).bossHp ∧
          (playerAttackResolve g rand).bossHp < g.bossHp) ∧
    (∀ (g : GlobalState) (rand : ℝ),
        g.bossHp ≤ 0 → playerAttackResolve g rand = g) ∧
    (∀ g : GlobalState,
        ¬ didSpheresCollide (bossAttackSpherePosition g)
            g.bossAttackSphereRadius (playerCollisionSpherePosition g)
            g.playerCollisionSphereRadius →
        bossAttackResolve g = g) ∧
    (∀ g : GlobalState,
        didSpheresCollide (bossAttackSpherePosition g) g.bossAttackSphereRadius
          (playerCollisionSpherePosition g) g.playerCollisionSphereRadius →
        0 < g.playerHp →
        (bossAttackResolve g).playerHp = max 0 (g.playerHp - 10) ∧
          0 ≤ (bossAttackResolve g).playerHp ∧
          (bossAttackResolve g).playerHp < g.playerHp) ∧
    (∀ g : GlobalState,
        g.playerHp ≤ 0 → bossAttackResolve g = g) := by
  refine ⟨?_, ?_, ?_, ?_, ?_, ?_⟩
  · intro g rand hnc
    unfold playerAttackResolve
    rw [if_neg (by rintro ⟨hc, _⟩; exact hnc hc)]
  · intro g rand h0 h1 hc hhp
    unfold playerAttackResolve
    rw [if_pos ⟨hc, hhp⟩]
    have hdmg69 : 69 ≤ playerAttackDamage rand := by
      unfold playerAttackDamage; nlinarith
    have hdmg120 : playerAttackDamage rand ≤ 120 := by
      unfold playerAttackDamage; nlinarith
    refine ⟨rfl, hdmg69, hdmg120, le_max_right _ _, ?_⟩
    exact max_lt (by linarith) hhp
  · intro g rand hhp
    unfold playerAttackResolve
    rw [if_neg (by rintro ⟨_, h⟩; linarith)]
  · intro g hnc
    unfold bossAttackResolve
    rw [if_neg (by rintro ⟨hc, _⟩; exact hnc hc)]
  · intro g hc hhp
    unfold bossAttackResolve
    rw [if_pos ⟨hc, hhp⟩]
    exact ⟨rfl, le_max_left _ _, max_lt hhp (by linarith)⟩
  · intro g hhp
    unfold bossAttackResolve
    rw [if_neg (by rintro ⟨_, h⟩; linarith)]

/-- Witness for C4 at a concrete input: in the default state the player's
attack sphere (center `(0,1,1.5)`) misses the boss's collision sphere (center
`(0,2,20)`, radii summing to 2.3), so the resolution changes nothing. -/
theorem C4_attack_resolution_witness :
    playerAttackResolve defaultGameState 0 = defaultGameState := by
  refine C4_attack_resolution.1 defaultGameState 0 ?_
  unfold didSpheresCollide playerAttackSpherePosition
    bossCollisionSpherePosition rotateByEuler Vec3.distanceTo defaultGameState
  refine not_le.mpr ((Real.lt_sqrt (by norm_num)).mpr ?_)
  norm_num [Real.cos_zero, Real.sin_zero]

/-- C6: the player's attack-sphere world position is the player position plus
the rotated offset in all three components, for every state; the boss's z
component instead subtracts the rotated offset (`Boss.tsx` line 220).  At the
default state — boss at `(0,0,20)` facing the player with yaw π and attack
offset `(0,1.5,10)` — the code places the sphere at `z = 30`, behind the boss,
while position-plus-rotated-offset gives `z = 10`, toward the player. -/
theorem C6_attack_sphere_world_position :
    (∀ g : GlobalState,
        playerAttackSpherePosition g =
          Vec3.add g.playerPosition
            (rotateByEuler g.playerRotation g.playerAttackSphereOffset)) ∧
    (∀ g : GlobalState,
        (bossAttackSpherePosition g).z =
          g.bossPosition.z -
            (rotateByEuler g.bossRotation g.bossAttackSphereOffset).z) ∧
    (bossAttackSpherePosition defaultGameState).z = 30 ∧
    (Vec3.add defaultGameState.bossPosition
      (rotateByEuler defaultGameState.bossRotation
        defaultGameState.bossAttackSphereOffset)).z = 10 := by
  refine ⟨fun g => rfl, fun g => rfl, ?_, ?_⟩
  · unfold bossAttackSpherePosition rotateByEuler defaultGameState
    norm_num [Real.cos_zero, Real.sin_zero, Real.cos_pi, Real.sin_pi]
  · unfold Vec3.add rotateByEuler defaultGameState
    norm_num [Real.cos_zero, Real.sin_zero, Real.cos_pi, Real.sin_pi]

/-- `moveTowardsPlayer` fails immediately while the boss is attacking
(`part_008` line 142). -/
theorem move_fails_when_attacking (w : BossWorld)
    (h : w.ai.isAttacking = true) :
    moveTowardsPlayerLeaf w = (FAILURE, w) := by
  unfold moveTowardsPlayerLeaf
  rw [if_pos h]

/-- `wrapAngle` is the identity on 0. -/
theorem wrapAngle_zero : wrapAngle 0 = 0 := by
  unfold wrapAngle
  rw [wrapDown, if_neg (not_lt.mpr Real.pi_pos.le), wrapUp,
    if_neg (not_lt.mpr (neg_nonpos.mpr Real.pi_pos.le))]

/-- C3 (amended): boss attack gating across root ticks.  When the player is in
attack range, the cooldown has elapsed and the boss is not attacking, one root
tick returns SUCCESS having invoked `triggerBossAttack` exactly once, set
`isAttacking := true` and stamped `lastAttackTime := now`.  A tick taken while
`isAttacking` is still set never invokes the trigger again; it returns RUNNING
only when the cooldown has (counterfactually) elapsed at that tick — with the
cooldown still running, the attack branch fails at `attackOffCooldown` and the
tick falls through to the chase branch instead of returning RUNNING. -/
theorem C3_attack_gating :
    (∀ w : BossWorld,
        w.ai.isAttacking = false →
        distanceToPlayer w.bossPosition w.playerPosition ≤ w.ai.attackRange →
        w.now - w.ai.lastAttackTime ≥ w.ai.attackCooldown →
        bossTick w = (SUCCESS, performAttackUpdate w) ∧
        (performAttackUpdate w).ai.isAttacking = true ∧
        (performAttackUpdate w).triggerCount = w.triggerCount + 1 ∧
        (performAttackUpdate w).ai.lastAttackTime = w.now) ∧
    (∀ w : BossWorld,
        w.ai.isAttacking = true →
        (bossTick w).2.triggerCount = w.triggerCount) ∧
    (∀ w : BossWorld,
        w.ai.isAttacking = true →
        distanceToPlayer w.bossPosition w.playerPosition ≤ w.ai.attackRange →
        w.now - w.ai.lastAttackTime ≥ w.ai.attackCooldown →
        (bossTick w).1 = RUNNING) := by
  have echase : ∀ u : BossWorld, u.ai.isAttacking = true →
      (chaseSequenceTick u).2.triggerCount = u.triggerCount := by
    intro u hu
    unfold chaseSequenceTick
    by_cases hf : isFacingPlayer u.bossRotation u.bossPosition
        u.playerPosition 0.2
    · have e4 : isFacingPlayerLeaf u = (SUCCESS, u) := by
        unfold isFacingPlayerLeaf
        rw [if_pos hf]
      simp [runSequence, runSelector, e4, move_fails_when_attacking u hu]
    · have e4 : isFacingPlayerLeaf u = (FAILURE, u) := by
        unfold isFacingPlayerLeaf
        rw [if_neg hf]
      rcases htl : turnTowardsPlayerLeaf u with ⟨stt, ut⟩
      have hut : ut.triggerCount = u.triggerCount := by
        have h2 : (turnTowardsPlayerLeaf u).2.triggerCount =
            u.triggerCount := rfl
        rw [htl] at h2
        simpa using h2
      have hutatt : ut.ai.isAttacking = true := by
        have h2 : (turnTowardsPlayerLeaf u).2.ai.isAttacking =
            u.ai.isAttacking := rfl
        rw [htl] at h2
        simpa using h2.trans hu
      cases stt <;>
        simp only [runSequence, runSelector, e4, htl,
          move_fails_when_attacking ut hutatt] <;>
        simpa using hut
  refine ⟨?_, ?_, ?_⟩
  · intro w hatt hrange hcool
    have e1 : inAttackRangeLeaf w = (SUCCESS, w) := by
      unfold inAttackRangeLeaf inAttackRange
      rw [if_pos hrange]
    have e2 : attackOffCooldownLeaf w = (SUCCESS, w) := by
      unfold attackOffCooldownLeaf
      rw [if_pos hcool]
    have e3 : performAttackLeaf w = (SUCCESS, performAttackUpdate w) := by
      unfold performAttackLeaf
      rw [if_pos hatt]
    have ea : attackSequenceTick w = (SUCCESS, performAttackUpdate w) := by
      simp only [attackSequenceTick, runSequence, e1, e2, e3]
    refine ⟨?_, rfl, rfl, rfl⟩
    simp only [bossTick, runSelector, ea]
  · intro w hatt
    have e3 : performAttackLeaf w = (RUNNING, w) := by
      unfold performAttackLeaf
      rw [if_neg (by simp [hatt])]
    by_cases hr : distanceToPlayer w.bossPosition w.playerPosition ≤
        w.ai.attackRange
    · have e1 : inAttackRangeLeaf w = (SUCCESS, w) := by
        unfold inAttackRangeLeaf inAttackRange
        rw [if_pos hr]
      by_cases hc : w.now - w.ai.lastAttackTime ≥ w.ai.attackCooldown
      · have e2 : attackOffCooldownLeaf w = (SUCCESS, w) := by
          unfold attackOffCooldownLeaf
          rw [if_pos hc]
        have ea : attackSequenceTick w = (RUNNING, w) := by
          simp only [attackSequenceTick, runSequence, e1, e2, e3]
        simp only [bossTick, runSelector, ea]
      · have e2 : attackOffCooldownLeaf w = (FAILURE, w) := by
          unfold attackOffCooldownLeaf
          rw [if_neg hc]
        have ea : attackSequenceTick w = (FAILURE, w) := by
          simp only [attackSequenceTick, runSequence, e1, e2]
        have hres := echase w hatt
        simp only [bossTick, runSelector, ea]
        rcases hct : chaseSequenceTick w with ⟨stc, uc⟩
        rw [hct] at hres
        cases stc <;> simpa using hres
    · have e1 : inAttackRangeLeaf w = (FAILURE, w) := by
        unfold inAttackRangeLeaf inAttackRange
        rw [if_neg hr]
      have ea : attackSequenceTick w = (FAILURE, w) := by
        simp only [attackSequenceTick, runSequence, e1]
      have hres := echase w hatt
      simp only [bossTick, runSelector, ea]
      rcases hct : chaseSequenceTick w with ⟨stc, uc⟩
      rw [hct] at hres
      cases stc <;> simpa using hres
  · intro w hatt hrange hcool
    have e1 : inAttackRangeLeaf w = (SUCCESS, w) := by
      unfold inAttackRangeLeaf inAttackRange
      rw [if_pos hrange]
    have e2 : attackOffCooldownLeaf w = (SUCCESS, w) := by
      unfold attackOffCooldownLeaf
      rw [if_pos hcool]
    have e3 : performAttackLeaf w = (RUNNING, w) := by
      unfold performAttackLeaf
      rw [if_neg (by simp [hatt])]
    have ea : attackSequenceTick w = (RUNNING, w) := by
      simp only [attackSequenceTick, runSequence, e1, e2, e3]
    simp only [bossTick, runSelector, ea]

/-- Witness for C3 at a concrete input: boss and player at the origin, boss
idle with the cooldown elapsed; one root tick succeeds having triggered the
attack exactly once. -/
theorem C3_attack_gating_witness :
    bossTick bossWorldFirstTick =
      (SUCCESS, performAttackUpdate bossWorldFirstTick) ∧
    (performAttackUpdate bossWorldFirstTick).triggerCount = 1 :=
  ⟨(C3_attack_gating.1 bossWorldFirstTick rfl
      (by
        unfold distanceToPlayer Vec3.distanceTo bossWorldFirstTick
        norm_num [Real.sqrt_zero])
      (by norm_num [bossWorldFirstTick])).1, rfl⟩

/-- C3 counterexample: one AI interval (50 ms) after the boss started an attack
— player in range, `isAttacking` still set, the attack not yet complete — the
root tick returns FAILURE, not RUNNING: the attack branch fails at
`attackOffCooldown` (the attack start stamped `lastAttackTime`), and the chase
branch fails because the boss faces the player and `moveTowardsPlayer` fails
while attacking.  The trigger is not re-invoked. -/
theorem C3_second_tick_counterexample :
    bossWorldSecondTick.ai.isAttacking = true ∧
    distanceToPlayer bossWorldSecondTick.bossPosition
        bossWorldSecondTick.playerPosition ≤
      bossWorldSecondTick.ai.attackRange ∧
    (bossTick bossWorldSecondTick).1 = FAILURE ∧
    (bossTick bossWorldSecondTick).2.triggerCount =
      bossWorldSecondTick.triggerCount := by
  have hdist : distanceToPlayer bossWorldSecondTick.bossPosition
      bossWorldSecondTick.playerPosition = 0 := by
    unfold bossWorldSecondTick distanceToPlayer Vec3.distanceTo
    norm_num [Real.sqrt_zero]
  have e1 : inAttackRangeLeaf bossWorldSecondTick =
      (SUCCESS, bossWorldSecondTick) := by
    unfold inAttackRangeLeaf inAttackRange
    rw [if_pos (by rw [hdist]; norm_num [bossWorldSecondTick])]
  have e2 : attackOffCooldownLeaf bossWorldSecondTick =
      (FAILURE, bossWorldSecondTick) := by
    unfold attackOffCooldownLeaf
    rw [if_neg (by norm_num [bossWorldSecondTick])]
  have ea : attackSequenceTick bossWorldSecondTick =
      (FAILURE, bossWorldSecondTick) := by
    simp only [attackSequenceTick, runSequence, e1, e2]
  have hang : angleToFacePlayer bossWorldSecondTick.bossPosition
      bossWorldSecondTick.playerPosition = 0 := by
    unfold bossWorldSecondTick angleToFacePlayer directionToPlayer
      Vec3.normalize Vec3.length atan2
    norm_num [Real.sqrt_zero]
  have hfac : isFacingPlayer bossWorldSecondTick.bossRotation
      bossWorldSecondTick.bossPosition bossWorldSecondTick.playerPosition
      0.2 := by
    unfold isFacingPlayer
    rw [hang]
    have hy : bossWorldSecondTick.bossRotation.y = 0 := rfl
    rw [hy, sub_zero, wrapAngle_zero]
    norm_num
  have e4 : isFacingPlayerLeaf bossWorldSecondTick =
      (SUCCESS, bossWorldSecondTick) := by
    unfold isFacingPlayerLeaf
    rw [if_pos hfac]
  have e5 : moveTowardsPlayerLeaf bossWorldSecondTick =
      (FAILURE, bossWorldSecondTick) :=
    move_fails_when_attacking _ rfl
  have ec : chaseSequenceTick bossWorldSecondTick =
      (FAILURE, bossWorldSecondTick) := by
    simp only [chaseSequenceTick, runSequence, runSelector, e4, e5]
  have hroot : bossTick bossWorldSecondTick =
      (FAILURE, bossWorldSecondTick) := by
    simp only [bossTick, runSelector, ea, ec]
  exact ⟨rfl, by rw [hdist]; norm_num [bossWorldSecondTick],
    by rw [hroot], by rw [hroot]⟩

/-- C9 counterexample: if the animation-finished signal never arrives, the
boss's `isAttacking` flag is still set 100000 ms after attack start — far past
the 700 ms ceiling — because `triggerBossAttack` registers no backup timeout;
the claim fails for the boss actor. -/
theorem C9_boss_stuck_counterexample :
    (700 : ℝ) ≤ 100000 ∧ bossStillAttacking none 100000 := by
  constructor
  · norm_num
  · unfold bossStillAttacking
    trivial

/-- C9 (amended): the player's `isAttacking` flag is cleared no later than
700 ms after attack start by the backup timeout, whether or not the completion
signal ever fires; the boss's flag is cleared only by the completion signal,
and it remains set at every elapsed time if that signal never arrives. -/
theorem C9_backup_timeout_player_only :
    (∀ (finishedAt : Option ℝ) (elapsedMs : ℝ),
        700 ≤ elapsedMs → ¬ playerStillAttacking finishedAt elapsedMs) ∧
    (∀ elapsedMs : ℝ, bossStillAttacking none elapsedMs) := by
  constructor
  · intro f e he h
    exact absurd h.2 (not_lt.mpr he)
  · intro e
    unfold bossStillAttacking
    trivial

/-- Witness for C9 at a concrete input: with no completion signal, the player
is no longer attacking exactly at the 700 ms ceiling. -/
theorem C9_backup_timeout_player_only_witness :
    ¬ playerStillAttacking none 700 :=
  C9_backup_timeout_player_only.1 none 700 (le_refl 700)

end VibenRing
